import Mathlib

/-!
Verification of the pero-worker-libs adapter core.

Shallow embedding of `worker_adapter/worker_adapter.py`,
`worker_functions/mq_client.py` and `worker_adapter/zk_adapter_client.py`:
the data model, the connect / retry logic of the MQ client, the two control
loops of the worker adapter (request uploading and result receiving), the
error-count / mail-notification policy and the zookeeper directory snapshot.
Side effects are made explicit: exceptions become an `Except` / `Option`
value, in-place mutation becomes state passing, wall-clock reads become a
`now` parameter, and calls to collaborators (mail client, application
adapter, message broker) are recorded in an event trace.
-/

/-- Exception kinds that flow through the adapter code:
`typeError` (Python TypeError, e.g. an unexpected keyword argument),
`connectionError` (builtin ConnectionError raised by mq_connect_retry),
`amqpUnroutableError` (pika.exceptions.UnroutableError),
`amqpError` (any other pika.exceptions.AMQPError),
`workerAdapterRecoverableError` (worker_adapter.py line 21),
`keyboardInterrupt`, `decodeError` (protobuf parse failure of a message
body), `nameError` (reference to an undefined name) and a catch-all
`otherError`. -/
inductive PyExc where
  | typeError
  | connectionError
  | amqpUnroutableError
  | amqpError
  | workerAdapterRecoverableError
  | keyboardInterrupt
  | decodeError
  | nameError
  | otherError
deriving Repr, DecidableEq

/-- ProcessingRequest fields the adapter core reads or writes
(message_pb2.ProcessingRequest as used by worker_adapter.py):
the ordered stage list, the dispatch timestamp `start_time` (unset until the
adapter publishes), the priority field and the page uuid used in error
messages. Timestamps are modelled as naturals. -/
structure ProcessingRequest where
  processing_stages : List String
  start_time : Option Nat
  priority : Nat
  page_uuid : String
deriving Repr, DecidableEq

/-- Routing step of WorkerAdapter.mq_send_request (worker_adapter.py lines
225-233): reads `processing_stages[0]` as the input queue name (an IndexError
on an empty list is modelled as `none`), appends `output_queue_name` to the
stage list, sets `start_time` to the current UTC time `now`, and hands back
the input queue name, the mutated request and the timestamp that
mq_send_request returns. -/
def mq_send_request_route (r : ProcessingRequest) (output_queue_name : String)
    (now : Nat) : Option (String × ProcessingRequest × Nat) :=
  match r.processing_stages with
  | [] => none
  | s0 :: _ =>
    some (s0,
      { r with
          processing_stages := r.processing_stages ++ [output_queue_name]
          start_time := some now },
      now)

/-- Attributes of WorkerAdapter relevant to the error policy. -/
structure WorkerAdapterState where
  recovery_timeout : Nat
  error_count : Nat
  max_error_count : Nat
deriving Repr, DecidableEq

/-- WorkerAdapter.__init__ (worker_adapter.py lines 35-78): stores
`recovery_timeout`, sets `error_count` to 0 and sets `max_error_count` to the
literal 10 (line 78), not to the constructor argument. -/
def WorkerAdapter_init (recovery_timeout : Nat) (max_error_count : Nat) :
    WorkerAdapterState :=
  { recovery_timeout := recovery_timeout
    error_count := 0
    max_error_count := 10 }

/-- Error-count / notification step shared by every recognized-failure branch
of the two loops (worker_adapter.py lines 171-177, 183-189, 286-292 and
350-356): the mail notification is requested exactly when the counter BEFORE
the increment exceeds `max_error_count`, and then the counter is incremented
by one. Returns the notify decision together with the new counter. -/
def error_notify_step (max_error_count error_count : Nat) : Bool × Nat :=
  (decide (error_count > max_error_count), error_count + 1)

/-- Notify decisions over a run of `n` consecutive recognized failures
starting from the given counter value, one `error_notify_step` per failure. -/
def error_notify_run (max_error_count error_count : Nat) : Nat → List Bool
  | 0 => []
  | n + 1 =>
    (error_notify_step max_error_count error_count).1 ::
      error_notify_run max_error_count
        (error_notify_step max_error_count error_count).2 n

/-- Counter value after `n` consecutive recognized failures: each failure
branch increments by one and nothing else touches the counter. -/
def error_count_after (error_count n : Nat) : Nat := error_count + n

/-- Observable actions of the two adapter loops: the call to mq_connect_retry,
the basic_consume / start_consuming step, a basic_publish of a request, a
mail_client.send_mail_notification call, the report_error and confirm_send
collaborator calls, and a time.sleep(recovery_timeout). -/
inductive Event where
  | connectCall
  | consumeStart
  | publishAttempt (r : ProcessingRequest)
  | mailNotify
  | callReportError (r : ProcessingRequest) (msg : String)
  | callConfirmSend (r : ProcessingRequest) (ts : Nat)
  | sleepRecovery
deriving Repr, DecidableEq

/-- What a loop iteration decides about the `while True` loop: run the next
iteration, or break out returning the given return_code. -/
inductive LoopControl where
  | nextIteration
  | breakLoop (return_code : Nat)
deriving Repr, DecidableEq

/-- Disposition of a consumed message: basic_ack, or basic_nack with the
given requeue flag. -/
inductive MessageAction where
  | ack
  | nack (requeue : Bool)
deriving Repr, DecidableEq

/-- Keyword parameters accepted by MQClient.mq_connect_retry: the signature at
mq_client.py line 77 is `(self, *, heartbeat = 60, max_retry = 0,
retry_interval = 30)`, all keyword-only. -/
def mq_connect_retry_keywords : List String :=
  ["heartbeat", "max_retry", "retry_interval"]

/-- Keyword arguments the adapter passes at the connect step of both loops
(worker_adapter.py lines 140-144 and 302-306). -/
def adapter_connect_call_keywords : List String :=
  ["confirm_delivery", "max_retry", "retry_interval"]

/-- Python call semantics for keyword arguments: when some keyword argument of
the call is not among the accepted keyword parameters the call raises
TypeError without running the body, otherwise the call has the body's
outcome. -/
def py_call_keywords (accepted callKeywords : List String)
    (body : Except PyExc Unit) : Except PyExc Unit :=
  if callKeywords.all (fun k => accepted.contains k) then body
  else .error .typeError

/-- WorkerAdapter._mq_receive_result_callback (worker_adapter.py lines
90-118): `deserialize_exc` is the exception ProcessingRequest().FromString
raises on the body (none when parsing succeeds), `handler_exc` the exception
the on_message_receive collaborator raises. On a parse failure the message is
nacked with requeue=True and the parse exception is re-raised; on a handler
failure the message is nacked with requeue=True and the handler exception
propagates; on success the message is acked. The callback never touches
error_count (third component). -/
def mq_receive_result_callback (deserialize_exc handler_exc : Option PyExc)
    (error_count : Nat) : MessageAction × Option PyExc × Nat :=
  match deserialize_exc with
  | some e => (.nack true, some e, error_count)
  | none =>
    match handler_exc with
    | some e => (.nack true, some e, error_count)
    | none => (.ack, none, error_count)

/-- Handling of the outcome of mq_channel.start_consuming inside
start_receiving_results (worker_adapter.py lines 163-210): the except clauses
for pika.exceptions.AMQPError (line 165), WorkerAdapterRecoverableError
(line 178), KeyboardInterrupt (line 192) and the generic Exception clause
(line 196). `none` means start_consuming returned normally. Returns the
events, the new error_count and the loop control. -/
def consume_exc_dispatch (max_error_count error_count : Nat) :
    Option PyExc → List Event × Nat × LoopControl
  | some .amqpError =>
      ((if error_count > max_error_count then [Event.mailNotify] else []),
       error_count + 1, .nextIteration)
  | some .workerAdapterRecoverableError =>
      ((if error_count > max_error_count then [Event.mailNotify] else []) ++
         [Event.sleepRecovery],
       error_count + 1, .nextIteration)
  | some .keyboardInterrupt => ([], error_count, .breakLoop 0)
  | some _ => ([Event.mailNotify], error_count + 1, .breakLoop 1)
  | none => ([], error_count, .nextIteration)

/-- One iteration of the `while True` loop of start_receiving_results
(worker_adapter.py lines 137-210). The connect step calls mq_connect_retry
with the adapter's keyword-argument set, so its outcome goes through
`py_call_keywords`; `connect_body` is what the method body would produce if
the call bound its arguments. In the `except ConnectionError` clause the mail
body f-string reads the undefined name `e` (line 152), raising NameError,
which the generic Exception clause then handles (notify, increment, return
code 1); a KeyboardInterrupt from the connect step breaks with code 0; any
other connect exception reaches the generic clause directly. On a successful
connect the loop consumes and dispatches on the outcome. -/
def receive_loop_iteration (max_error_count error_count : Nat)
    (connect_body : Except PyExc Unit) (consume_exc : Option PyExc) :
    List Event × Nat × LoopControl :=
  match py_call_keywords mq_connect_retry_keywords adapter_connect_call_keywords
      connect_body with
  | .error .connectionError =>
      ([Event.connectCall, Event.mailNotify], error_count + 1, .breakLoop 1)
  | .error .keyboardInterrupt =>
      ([Event.connectCall], error_count, .breakLoop 0)
  | .error _ =>
      ([Event.connectCall, Event.mailNotify], error_count + 1, .breakLoop 1)
  | .ok _ =>
      let d := consume_exc_dispatch max_error_count error_count consume_exc
      (Event.connectCall :: Event.consumeStart :: d.1, d.2)

/-- The full start_receiving_results loop (worker_adapter.py lines 120-212),
iterated with `fuel` as the bound on the number of iterations (`none` when
the loop is still running after `fuel` iterations). `connect_body` and
`consume_exc` give per-iteration outcomes, `iter` the current iteration
index. On termination returns the accumulated event trace and the
return_code. -/
def start_receiving_results_run (max_error_count : Nat)
    (connect_body : Nat → Except PyExc Unit) (consume_exc : Nat → Option PyExc)
    (error_count iter : Nat) : Nat → Option (List Event × Nat)
  | 0 => none
  | fuel + 1 =>
    match receive_loop_iteration max_error_count error_count
        (connect_body iter) (consume_exc iter) with
    | (evs, _, .breakLoop rc) => some (evs, rc)
    | (evs, cnt, .nextIteration) =>
      match start_receiving_results_run max_error_count connect_body
          consume_exc cnt (iter + 1) fuel with
      | none => none
      | some (evs2, rc) => some (evs ++ evs2, rc)

/-- Outcome of the basic_publish inside mq_send_request as observed by the
except clauses of start_uploading_requests (worker_adapter.py lines
319-384): delivered, rejected as unroutable (pika.exceptions.UnroutableError),
failed with another pika.exceptions.AMQPError, interrupted, or failed with an
unclassified exception. -/
inductive PublishOutcome where
  | delivered
  | unroutable
  | amqpError
  | keyboardInterrupt
  | otherExc
deriving Repr, DecidableEq

/-- Error message passed to report_error on an unroutable publish
(worker_adapter.py lines 338-343); `err` is str(e) of the UnroutableError. -/
def unroutable_report_message (page_uuid err : String) : String :=
  "Failed to upload page " ++ page_uuid ++
    " due to wrong input queue in configuration!\nReceived error: " ++ err

/-- The `try` block around mq_send_request and its except/else clauses inside
start_uploading_requests (worker_adapter.py lines 319-384). The routing step
runs first (inside mq_send_request); an IndexError on an empty stage list is
an unclassified exception handled by the generic clause at line 361 (notify,
increment, return code 1). Otherwise the routed request is published and the
outcome dispatched: delivered ⇒ confirm_send with the routed request and the
timestamp, then error_count = 0; unroutable ⇒ notify mail, report_error with
the routed request and the message, counter untouched, continue; AMQPError ⇒
threshold-gated notify, increment, sleep, continue; KeyboardInterrupt ⇒
break with the current return code 0; unclassified ⇒ notify, increment,
break with code 1. -/
def upload_publish_section (max_error_count error_count : Nat)
    (r : ProcessingRequest) (output_queue_name err : String) (now : Nat)
    (outcome : PublishOutcome) : List Event × Nat × LoopControl :=
  match mq_send_request_route r output_queue_name now with
  | none => ([Event.mailNotify], error_count + 1, .breakLoop 1)
  | some (_, routed, timestamp) =>
    match outcome with
    | .delivered =>
        ([Event.publishAttempt routed,
          Event.callConfirmSend routed timestamp],
         0, .nextIteration)
    | .unroutable =>
        ([Event.publishAttempt routed, Event.mailNotify,
          Event.callReportError routed
            (unroutable_report_message routed.page_uuid err)],
         error_count, .nextIteration)
    | .amqpError =>
        (Event.publishAttempt routed ::
           ((if error_count > max_error_count then [Event.mailNotify] else [])
             ++ [Event.sleepRecovery]),
         error_count + 1, .nextIteration)
    | .keyboardInterrupt =>
        ([Event.publishAttempt routed], error_count, .breakLoop 0)
    | .otherExc =>
        ([Event.publishAttempt routed, Event.mailNotify],
         error_count + 1, .breakLoop 1)

/-- One iteration of the `while True` loop of start_uploading_requests
(worker_adapter.py lines 274-403). get_request runs first: a
WorkerAdapterRecoverableError gives threshold-gated notify, increment, sleep,
continue (lines 280-294); a KeyboardInterrupt breaks with code 0; any other
exception reaches the generic clause (notify, increment, code 1). An empty
request continues the loop (line 297). Otherwise the connect step calls
mq_connect_retry with the adapter's keyword set (the `except ConnectionError`
clause again reads the undefined name `e` in the mail body, so a NameError
lands in the generic clause), and on a successful connect the publish section
runs. -/
def upload_loop_iteration (max_error_count error_count : Nat)
    (get_request_result : Except PyExc (Option ProcessingRequest))
    (connect_body : Except PyExc Unit) (outcome : PublishOutcome)
    (output_queue_name err : String) (now : Nat) :
    List Event × Nat × LoopControl :=
  match get_request_result with
  | .error .workerAdapterRecoverableError =>
      ((if error_count > max_error_count then [Event.mailNotify] else []) ++
         [Event.sleepRecovery],
       error_count + 1, .nextIteration)
  | .error .keyboardInterrupt => ([], error_count, .breakLoop 0)
  | .error _ => ([Event.mailNotify], error_count + 1, .breakLoop 1)
  | .ok none => ([], error_count, .nextIteration)
  | .ok (some r) =>
    match py_call_keywords mq_connect_retry_keywords
        adapter_connect_call_keywords connect_body with
    | .error .connectionError =>
        ([Event.connectCall, Event.mailNotify], error_count + 1, .breakLoop 1)
    | .error .keyboardInterrupt =>
        ([Event.connectCall], error_count, .breakLoop 0)
    | .error _ =>
        ([Event.connectCall, Event.mailNotify], error_count + 1, .breakLoop 1)
    | .ok _ =>
      let s := upload_publish_section max_error_count error_count r
        output_queue_name err now outcome
      (Event.connectCall :: s.1, s.2)

/-- The full start_uploading_requests loop (worker_adapter.py lines 249-405),
iterated with `fuel` as the bound on the number of iterations (`none` when
the loop is still running after `fuel` iterations). The per-iteration oracles
give get_request's result, the connect body outcome, the publish outcome and
the current time at iteration `iter`. -/
def start_uploading_requests_run (max_error_count : Nat)
    (get_request : Nat → Except PyExc (Option ProcessingRequest))
    (connect_body : Nat → Except PyExc Unit) (outcome : Nat → PublishOutcome)
    (output_queue_name err : String) (now : Nat → Nat)
    (error_count iter : Nat) : Nat → Option (List Event × Nat)
  | 0 => none
  | fuel + 1 =>
    match upload_loop_iteration max_error_count error_count (get_request iter)
        (connect_body iter) (outcome iter) output_queue_name err (now iter) with
    | (evs, _, .breakLoop rc) => some (evs, rc)
    | (evs, cnt, .nextIteration) =>
      match start_uploading_requests_run max_error_count get_request
          connect_body outcome output_queue_name err now cnt (iter + 1) fuel with
      | none => none
      | some (evs2, rc) => some (evs ++ evs2, rc)

/-- Result of one server's connect attempt inside MQClient.mq_connect
(mq_client.py lines 55-75): the pika.BlockingConnection constructor raises
(transportFail), the connection opens but mq_connection.channel() raises
(channelFail), or both succeed. Both failure kinds raise
pika.exceptions.AMQPError, caught at line 70. -/
inductive ConnAttemptResult where
  | transportFail
  | channelFail
  | success
deriving Repr, DecidableEq

/-- The mq_connection / mq_channel attributes of MQClient: which server's
connection object and channel object are currently assigned (`none` when the
attribute is still None). Servers are identified by an index. -/
structure MQClientConn where
  mq_connection : Option Nat
  mq_channel : Option Nat
deriving Repr, DecidableEq

/-- MQClient.mq_connect (mq_client.py lines 51-75) over the server list with
each server's attempt result. Iterates in order: on transportFail the
constructor raises before any assignment; on channelFail mq_connection is
assigned and then the channel call raises (caught, continue with the next
server); on success both attributes are assigned and the for loop breaks.
Returns the final attribute state and the indices of the servers attempted,
in order. The function returns normally in every case. -/
def mq_connect (servers : List (Nat × ConnAttemptResult)) (st : MQClientConn) :
    MQClientConn × List Nat :=
  match servers with
  | [] => (st, [])
  | (srv, res) :: rest =>
    match res with
    | .transportFail =>
      let r := mq_connect rest st
      (r.1, srv :: r.2)
    | .channelFail =>
      let r := mq_connect rest { st with mq_connection := some srv }
      (r.1, srv :: r.2)
    | .success => ({ mq_connection := some srv, mq_channel := some srv }, [srv])

/-- State of the connection and channel as tested by the while condition of
mq_connect_retry (mq_client.py line 87): whether mq_connection is set and
open
 and whether mq_channel is set and open. -/
structure MQConnState where
  connection_open : Bool
  channel_open : Bool
deriving Repr, DecidableEq

/-- The while condition of mq_connect_retry: mq_connection and
mq_connection.is_open and mq_channel and mq_channel.is_open. -/
def mq_connected (s : MQConnState) : Bool := s.connection_open && s.channel_open

/-- Observable actions of mq_connect_retry: a call to mq_connect, and a
time.sleep(retry_interval). -/
inductive RetryEvent where
  | connectAttempt
  | sleepRetry (seconds : Nat)
deriving Repr, DecidableEq

/-- Body of MQClient.mq_connect_retry (mq_client.py lines 77-105). `connect`
gives the connection state after the mq_connect call of the given attempt
index; `fuel` bounds the number of while-loop iterations (`none` = the loop
is still running after `fuel` iterations). Each iteration: if the connection
and channel are both open the loop exits (and the final check at line 104
passes, no raise); otherwise, when retry_count is nonzero it sleeps
retry_interval first, then calls mq_connect and increments retry_count, and
when max_retry is nonzero and retry_count reached it, the loop breaks and the
final check raises ConnectionError exactly when the connection and channel
are not both open. Returns the event trace and, on termination, the final
state with the raised flag (true = ConnectionError raised). -/
def mq_connect_retry_go (connect : Nat → MQConnState)
    (max_retry retry_interval : Nat) (state : MQConnState)
    (retry_count : Nat) : Nat → List RetryEvent × Option (MQConnState × Bool)
  | 0 => ([], none)
  | fuel + 1 =>
    if mq_connected state then ([], some (state, false))
    else
      let pre : List RetryEvent :=
        if retry_count ≠ 0 then [RetryEvent.sleepRetry retry_interval] else []
      let state1 := connect retry_count
      let rc1 := retry_count + 1
      if max_retry ≠ 0 ∧ rc1 = max_retry then
        (pre ++ [RetryEvent.connectAttempt], some (state1, ! mq_connected state1))
      else
        let rest := mq_connect_retry_go connect max_retry retry_interval state1
          rc1 fuel
        (pre ++ RetryEvent.connectAttempt :: rest.1, rest.2)

/-- MQClient.mq_connect_retry entry point: retry_count starts at 0. -/
def mq_connect_retry (connect : Nat → MQConnState)
    (max_retry retry_interval : Nat) (state : MQConnState) (fuel : Nat) :
    List RetryEvent × Option (MQConnState × Bool) :=
  mq_connect_retry_go connect max_retry retry_interval state 0 fuel

/-- Trace of `n` connect attempts with a sleep of `retry_interval` before
every attempt except the first (`first` records whether the next attempt is
the very first one). -/
def retry_fail_trace (retry_interval : Nat) : Nat → Bool → List RetryEvent
  | 0, _ => []
  | n + 1, first =>
    (if first then [] else [RetryEvent.sleepRetry retry_interval]) ++
      RetryEvent.connectAttempt :: retry_fail_trace retry_interval n false

/-- One MQ server record in the 'output_record' format
(host, optional port). -/
structure ServerRecord where
  host : String
  port : Option Nat
deriving Repr, DecidableEq, Inhabited

/-- Object heap for server-record objects: a reference-to-value map together
with the next fresh reference. Python aliasing is modelled through
references; copy.deepcopy allocates fresh references. -/
structure RecHeap where
  cells : List (Nat × ServerRecord)
  next : Nat
deriving Repr, DecidableEq

/-- Value stored at reference `r` (first matching cell). -/
def RecHeap.get (h : RecHeap) (r : Nat) : Option ServerRecord :=
  (h.cells.find? (fun p => p.1 == r)).map (fun p => p.2)

/-- In-place mutation of the object at reference `r`. -/
def RecHeap.put (h : RecHeap) (r : Nat) (v : ServerRecord) : RecHeap :=
  { h with cells := h.cells.map (fun p => if p.1 == r then (r, v) else p) }

/-- Allocation of a fresh object holding value `v`; returns the extended heap
and the fresh reference. -/
def RecHeap.alloc (h : RecHeap) (v : ServerRecord) : RecHeap × Nat :=
  ({ cells := (h.next, v) :: h.cells, next := h.next + 1 }, h.next)

/-- State of ZkAdapterClient relevant to the directory: the object heap and
the mq_servers attribute, a list of references to record objects. -/
structure ZkAdapterClientState where
  heap : RecHeap
  mq_servers : List Nat
deriving Repr, DecidableEq

/-- copy.deepcopy of a list of record objects: a fresh object is allocated
for every element, holding the same value; the resulting list is itself a new
list of the fresh references. -/
def deepcopy_list (h : RecHeap) : List Nat → RecHeap × List Nat
  | [] => (h, [])
  | r :: rs =>
    let a := h.alloc ((h.get r).getD default)
    let rest := deepcopy_list a.1 rs
    (rest.1, a.2 :: rest.2)

/-- ZkAdapterClient.get_mq_servers (zk_adapter_client.py lines 63-71):
returns copy.deepcopy(self.mq_servers) under the lock; the stored reference
list is untouched, the heap grows by the fresh copies. -/
def get_mq_servers (st : ZkAdapterClientState) :
    ZkAdapterClientState × List Nat :=
  let c := deepcopy_list st.heap st.mq_servers
  ({ st with heap := c.1 }, c.2)

/-- ZkAdapterClient._set_mq_servers (zk_adapter_client.py lines 54-61):
replaces the stored reference list under the lock. -/
def set_mq_servers (st : ZkAdapterClientState) (servers : List Nat) :
    ZkAdapterClientState :=
  { st with mq_servers := servers }

/-- Mutation of one record object reachable from a list returned by
get_mq_servers (e.g. assigning to a field of an element of the returned
snapshot): an in-place write through the reference. -/
def mutate_record (st : ZkAdapterClientState) (r : Nat) (v : ServerRecord) :
    ZkAdapterClientState :=
  { st with heap := st.heap.put r v }

/-- The record values a list of references denotes in a state (deep equality
of two reference lists is equality of their `record_values`). -/
def record_values (st : ZkAdapterClientState) (refs : List Nat) :
    List ServerRecord :=
  refs.map (fun r => (st.heap.get r).getD default)

/-- The report_error collaborator calls recorded in a trace, with their
arguments, in order. -/
def report_error_calls : List Event → List (ProcessingRequest × String)
  | [] => []
  | Event.callReportError r msg :: es => (r, msg) :: report_error_calls es
  | _ :: es => report_error_calls es

/-- The confirm_send collaborator calls recorded in a trace, with their
arguments, in order. -/
def confirm_send_calls : List Event → List (ProcessingRequest × Nat)
  | [] => []
  | Event.callConfirmSend r ts :: es => (r, ts) :: confirm_send_calls es
  | _ :: es => confirm_send_calls es

/-- The basic_publish attempts recorded in a trace, in order. -/
def publish_attempts : List Event → List ProcessingRequest
  | [] => []
  | Event.publishAttempt r :: es => r :: publish_attempts es
  | _ :: es => publish_attempts es

lemma error_notify_run_eq (m : Nat) :
    ∀ n c, error_notify_run m c n =
      (List.range n).map (fun k => decide (c + k > m)) := by
  intro n
  induction n with
  | zero => intro c; simp [error_notify_run]
  | succ n ih =>
    intro c
    rw [error_notify_run, List.range_succ_eq_map]
    simp only [List.map_cons, List.map_map, error_notify_step]
    refine congrArg₂ _ (by simp) ?_
    rw [ih (c + 1)]
    refine List.map_congr_left fun k _ => ?_
    simp only [Function.comp_apply]
    exact decide_eq_decide.mpr (by omega)

lemma retry_fail_trace_count_attempts (i : Nat) :
    ∀ n first, (retry_fail_trace i n first).count RetryEvent.connectAttempt = n := by
  intro n
  induction n with
  | zero => intro first; simp [retry_fail_trace]
  | succ n ih =>
    intro first
    cases first <;>
      simp [retry_fail_trace, ih, List.count_cons, List.count_append]

lemma retry_fail_trace_count_sleeps (i : Nat) :
    ∀ n, (retry_fail_trace i (n + 1) false).count (RetryEvent.sleepRetry i)
      = n + 1 ∧
    (retry_fail_trace i (n + 1) true).count (RetryEvent.sleepRetry i) = n := by
  intro n
  induction n with
  | zero => simp [retry_fail_trace]
  | succ n ih =>
    constructor
    · show (RetryEvent.sleepRetry i :: RetryEvent.connectAttempt ::
        retry_fail_trace i (n + 1) false).count (RetryEvent.sleepRetry i) = n + 2
      simp [List.count_cons, (ih).1]
    · show (RetryEvent.connectAttempt ::
        retry_fail_trace i (n + 1) false).count (RetryEvent.sleepRetry i) = n + 1
      simp [List.count_cons, (ih).1]

lemma mq_connect_retry_go_all_fail (connect : Nat → MQConnState)
    (N interval : Nat) (hfail : ∀ k, mq_connected (connect k) = false) :
    ∀ remaining retry_count state fuel,
      mq_connected state = false →
      retry_count + remaining = N →
      0 < remaining →
      remaining ≤ fuel →
      mq_connect_retry_go connect N interval state retry_count fuel =
        (retry_fail_trace interval remaining (retry_count == 0),
         some (connect (N - 1), true)) := by
  intro remaining
  induction remaining with
  | zero => intro _ _ _ _ _ h; omega
  | succ m ih =>
    intro retry_count state fuel hstate hsum _ hfuel
    obtain ⟨f, rfl⟩ : ∃ f, fuel = f + 1 := ⟨fuel - 1, by omega⟩
    rw [mq_connect_retry_go]
    rw [if_neg (by simp [hstate])]
    cases m with
    | zero =>
      have hrc : retry_count + 1 = N := by omega
      rw [if_pos ⟨by omega, hrc⟩]
      have hconn : connect retry_count = connect (N - 1) := by
        rw [show retry_count = N - 1 by omega]
      rw [hconn, hfail (N - 1)]
      cases h0 : retry_count == 0 <;>
        simp_all [retry_fail_trace]
    | succ m2 =>
      have hrc : retry_count + 1 ≠ N := by omega
      rw [if_neg (by simp [hrc])]
      rw [ih (retry_count + 1) (connect retry_count) f (hfail retry_count)
        (by omega) (by omega) (by omega)]
      have : (retry_count + 1 == 0) = false := by simp
      rw [this]
      cases h0 : retry_count == 0 <;> simp_all [retry_fail_trace]

lemma mq_connect_retry_go_unlimited (connect : Nat → MQConnState)
    (interval : Nat) (hfail : ∀ k, mq_connected (connect k) = false) :
    ∀ fuel retry_count state,
      mq_connected state = false →
      mq_connect_retry_go connect 0 interval state retry_count fuel =
        (retry_fail_trace interval fuel (retry_count == 0), none) := by
  intro fuel
  induction fuel with
  | zero => intro _ _ _; simp [mq_connect_retry_go, retry_fail_trace]
  | succ f ih =>
    intro retry_count state hstate
    rw [mq_connect_retry_go]
    rw [if_neg (by simp [hstate])]
    rw [if_neg (by simp)]
    rw [ih (retry_count + 1) (connect retry_count) (hfail retry_count)]
    have : (retry_count + 1 == 0) = false := by simp
    rw [this]
    cases h0 : retry_count == 0 <;> simp_all [retry_fail_trace]

lemma mq_connect_retry_go_terminates (connect : Nat → MQConnState)
    (N interval : Nat) (hN : 1 ≤ N) :
    ∀ fuel retry_count state,
      retry_count < N →
      N - retry_count ≤ fuel →
      ∃ st raised,
        (mq_connect_retry_go connect N interval state retry_count fuel).2 =
          some (st, raised) ∧
        (raised = true ↔ mq_connected st = false) := by
  intro fuel
  induction fuel with
  | zero => intro _ _ h1 h2; omega
  | succ f ih =>
    intro retry_count state hrc hfuel
    rw [mq_connect_retry_go]
    by_cases hst : mq_connected state
    · rw [if_pos hst]
      exact ⟨state, false, rfl, by simp [hst]⟩
    · rw [if_neg hst]
      by_cases hbreak : N ≠ 0 ∧ retry_count + 1 = N
      · rw [if_pos hbreak]
        refine ⟨connect retry_count, ! mq_connected (connect retry_count),
          rfl, ?_⟩
        cases h : mq_connected (connect retry_count) <;> simp [h]
      · rw [if_neg hbreak]
        have hne : retry_count + 1 ≠ N := by
          intro h; exact hbreak ⟨by omega, h⟩
        obtain ⟨st, raised, heq, hiff⟩ :=
          ih (retry_count + 1) (connect retry_count) (by omega) (by omega)
        exact ⟨st, raised, heq, hiff⟩

lemma mq_connect_first_success (S : Nat)
    (post : List (Nat × ConnAttemptResult)) :
    ∀ pre : List (Nat × ConnAttemptResult),
      (∀ p ∈ pre, p.2 ≠ ConnAttemptResult.success) →
      ∀ st, mq_connect (pre ++ (S, ConnAttemptResult.success) :: post) st =
        ({ mq_connection := some S, mq_channel := some S },
         pre.map Prod.fst ++ [S]) := by
  intro pre
  induction pre with
  | nil => intro _ st; rfl
  | cons p ps ih =>
    intro hfail st
    obtain ⟨srv, res⟩ := p
    have hres : res ≠ ConnAttemptResult.success :=
      hfail (srv, res) (List.mem_cons_self _ _)
    have hrec := ih (fun q hq => hfail q (List.mem_cons_of_mem _ hq))
    cases res with
    | success => exact absurd rfl hres
    | transportFail =>
      show (let r := mq_connect (ps ++ (S, ConnAttemptResult.success) :: post)
              st
            (r.1, srv :: r.2)) = _
      rw [hrec st]
      simp
    | channelFail =>
      show (let r := mq_connect (ps ++ (S, ConnAttemptResult.success) :: post)
              { st with mq_connection := some srv }
            (r.1, srv :: r.2)) = _
      rw [hrec { st with mq_connection := some srv }]
      simp

lemma mq_connect_all_fail (servers : List (Nat × ConnAttemptResult))
    (hfail : ∀ p ∈ servers, p.2 ≠ ConnAttemptResult.success) :
    ∀ co : Option Nat,
      (mq_connect servers ⟨co, none⟩).1.mq_channel = none ∧
      (mq_connect servers ⟨co, none⟩).2 = servers.map Prod.fst := by
  induction servers with
  | nil => intro co; exact ⟨rfl, rfl⟩
  | cons p ps ih =>
    intro co
    obtain ⟨srv, res⟩ := p
    have hres : res ≠ ConnAttemptResult.success :=
      hfail (srv, res) (List.mem_cons_self _ _)
    have hrec := ih (fun q hq => hfail q (List.mem_cons_of_mem _ hq))
    cases res with
    | success => exact absurd rfl hres
    | transportFail =>
      obtain ⟨h1, h2⟩ := hrec co
      exact ⟨h1, congrArg (fun l => srv :: l) h2⟩
    | channelFail =>
      obtain ⟨h1, h2⟩ := hrec (some srv)
      exact ⟨h1, congrArg (fun l => srv :: l) h2⟩

lemma mq_connect_all_transport (servers : List (Nat × ConnAttemptResult))
    (h : ∀ p ∈ servers, p.2 = ConnAttemptResult.transportFail) :
    ∀ st, mq_connect servers st = (st, servers.map Prod.fst) := by
  induction servers with
  | nil => intro st; rfl
  | cons p ps ih =>
    intro st
    obtain ⟨srv, res⟩ := p
    have hres : res = ConnAttemptResult.transportFail :=
      h (srv, res) (List.mem_cons_self _ _)
    subst hres
    have hrec := ih (fun q hq => h q (List.mem_cons_of_mem _ hq)) st
    show (let r := mq_connect ps st
          (r.1, srv :: r.2)) = _
    rw [hrec]
    simp

lemma RecHeap.get_put_ne (h : RecHeap) (a r : Nat) (v : ServerRecord)
    (hne : r ≠ a) : (h.put a v).get r = h.get r := by
  unfold RecHeap.put RecHeap.get
  simp only
  induction h.cells with
  | nil => simp
  | cons p ps ih =>
    by_cases hp : p.1 = a
    · simp only [List.map_cons, List.find?]
      rw [if_pos (by simp [hp])]
      have h1 : (a == r) = false := by simp [Ne.symm hne]
      have h2 : (p.1 == r) = false := by simp [hp, Ne.symm hne]
      simp only [h1, h2]
      exact ih
    · simp only [List.map_cons, List.find?]
      rw [if_neg (by simp [hp])]
      cases h2 : p.1 == r
      · simp only [ih]
      · simp

lemma deepcopy_list_heap_spec (rs : List Nat) :
    ∀ h : RecHeap,
      h.next ≤ (deepcopy_list h rs).1.next ∧
      (∀ r, r < h.next → (deepcopy_list h rs).1.get r = h.get r) := by
  induction rs with
  | nil => intro h; exact ⟨le_refl _, fun _ _ => rfl⟩
  | cons r rs ih =>
    intro h
    obtain ⟨hle, hget⟩ := ih (h.alloc ((h.get r).getD default)).1
    refine ⟨?_, ?_⟩
    · calc h.next ≤ h.next + 1 := by omega
        _ ≤ _ := hle
    · intro q hq
      rw [show deepcopy_list h (r :: rs) =
        (let a := h.alloc ((h.get r).getD default)
         let rest := deepcopy_list a.1 rs
         (rest.1, a.2 :: rest.2)) from rfl]
      simp only
      rw [hget q (by simp [RecHeap.alloc]; omega)]
      show ((h.alloc ((h.get r).getD default)).1).get q = h.get q
      unfold RecHeap.alloc RecHeap.get
      simp only [List.find?]
      have : (h.next == q) = false := by
        simp; omega
      rw [this]

lemma deepcopy_list_refs_spec (rs : List Nat) :
    ∀ h : RecHeap,
      (∀ a ∈ (deepcopy_list h rs).2,
        h.next ≤ a ∧ a < (deepcopy_list h rs).1.next) := by
  induction rs with
  | nil => intro h a ha; simp [deepcopy_list] at ha
  | cons r rs ih =>
    intro h a ha
    rw [show deepcopy_list h (r :: rs) =
      (let a2 := h.alloc ((h.get r).getD default)
       let rest := deepcopy_list a2.1 rs
       (rest.1, a2.2 :: rest.2)) from rfl] at ha ⊢
    simp only [List.mem_cons] at ha
    obtain ⟨hnext, _⟩ :=
      deepcopy_list_heap_spec rs (h.alloc ((h.get r).getD default)).1
    rcases ha with rfl | ha
    · refine ⟨le_refl _, ?_⟩
      show (h.alloc ((h.get r).getD default)).2 <
        (deepcopy_list (h.alloc ((h.get r).getD default)).1 rs).1.next
      have : (h.alloc ((h.get r).getD default)).2 <
          (h.alloc ((h.get r).getD default)).1.next := by
        simp [RecHeap.alloc]
      omega
    · obtain ⟨h1, h2⟩ := ih (h.alloc ((h.get r).getD default)).1 a ha
      refine ⟨?_, h2⟩
      have : h.next ≤ (h.alloc ((h.get r).getD default)).1.next := by
        simp [RecHeap.alloc]
      omega

lemma RecHeap.get_alloc_lt (h : RecHeap) (v : ServerRecord) (q : Nat)
    (hq : q < h.next) : (h.alloc v).1.get q = h.get q := by
  unfold RecHeap.alloc RecHeap.get
  simp only [List.find?]
  have : (h.next == q) = false := by simp; omega
  rw [this]

lemma deepcopy_list_values (rs : List Nat) :
    ∀ h : RecHeap, (∀ q ∈ rs, q < h.next) →
      (deepcopy_list h rs).2.map
          (fun r => ((deepcopy_list h rs).1.get r).getD default) =
        rs.map (fun r => (h.get r).getD default) := by
  induction rs with
  | nil => intro h _; rfl
  | cons r rs ih =>
    intro h hwf
    rw [show deepcopy_list h (r :: rs) =
      (let a := h.alloc ((h.get r).getD default)
       let rest := deepcopy_list a.1 rs
       (rest.1, a.2 :: rest.2)) from rfl]
    simp only [List.map_cons]
    obtain ⟨hle, hget⟩ :=
      deepcopy_list_heap_spec rs (h.alloc ((h.get r).getD default)).1
    refine congrArg₂ _ ?_ ?_
    · rw [hget (h.alloc ((h.get r).getD default)).2
        (by simp [RecHeap.alloc])]
      show (((h.alloc ((h.get r).getD default)).1).get h.next).getD default
        = (h.get r).getD default
      unfold RecHeap.alloc RecHeap.get
      simp [List.find?]
    · have hnext : (h.alloc ((h.get r).getD default)).1.next = h.next + 1 := by
        simp [RecHeap.alloc]
      calc (deepcopy_list (h.alloc ((h.get r).getD default)).1 rs).2.map
            (fun q => ((deepcopy_list (h.alloc ((h.get r).getD default)).1
              rs).1.get q).getD default)
          = rs.map (fun q =>
              (((h.alloc ((h.get r).getD default)).1).get q).getD default) := by
            refine ih (h.alloc ((h.get r).getD default)).1 fun q hq => ?_
            have := hwf q (List.mem_cons_of_mem r hq)
            omega
        _ = rs.map (fun q => (h.get q).getD default) := by
            refine List.map_congr_left fun q hq => ?_
            rw [RecHeap.get_alloc_lt h _ q (hwf q (List.mem_cons_of_mem r hq))]

lemma adapter_connect_call_raises (body : Except PyExc Unit) :
    py_call_keywords mq_connect_retry_keywords adapter_connect_call_keywords
      body = .error .typeError := by
  unfold py_call_keywords
  rw [show (adapter_connect_call_keywords.all
    (fun k => mq_connect_retry_keywords.contains k)) = false from by decide]
  rfl

lemma receive_loop_iteration_typeerror (m c : Nat) (body : Except PyExc Unit)
    (consume : Option PyExc) :
    receive_loop_iteration m c body consume =
      ([Event.connectCall, Event.mailNotify], c + 1, .breakLoop 1) := by
  unfold receive_loop_iteration
  rw [adapter_connect_call_raises]

lemma upload_loop_iteration_typeerror (m c now : Nat)
    (r : ProcessingRequest) (body : Except PyExc Unit)
    (outcome : PublishOutcome) (o err : String) :
    upload_loop_iteration m c (.ok (some r)) body outcome o err now =
      ([Event.connectCall, Event.mailNotify], c + 1, .breakLoop 1) := by
  unfold upload_loop_iteration
  rw [adapter_connect_call_raises]

/-- C1: for every invocation of start_receiving_results, and for every
invocation of start_uploading_requests whose get_request returns a non-empty
request, the first execution of the connect step calls mq_connect_retry with
a `confirm_delivery` keyword argument that the method's signature
(keyword-only parameters heartbeat, max_retry, retry_interval) does not
accept, so the call raises TypeError; the TypeError is handled by the generic
unclassified-exception branch (mail notification, error_count increment,
return_code 1, break), and the loop terminates with status 1 having recorded
no publish attempt and no consume start, whatever the method body, the
consume outcomes, the publish outcomes and the remaining fuel would have
been. -/
theorem C1_connect_typeerror (m c iter fuel : Nat)
    (body1 body2 : Except PyExc Unit) (consume : Nat → Option PyExc)
    (r : ProcessingRequest)
    (gr : Nat → Except PyExc (Option ProcessingRequest))
    (pub : Nat → PublishOutcome) (o err : String) (now : Nat → Nat)
    (hgr : gr iter = .ok (some r)) :
    ("confirm_delivery" ∈ adapter_connect_call_keywords ∧
     "confirm_delivery" ∉ mq_connect_retry_keywords ∧
     py_call_keywords mq_connect_retry_keywords adapter_connect_call_keywords
       body1 = .error .typeError) ∧
    start_receiving_results_run m (fun _ => body1) consume c iter (fuel + 1) =
      some ([Event.connectCall, Event.mailNotify], 1) ∧
    start_uploading_requests_run m gr (fun _ => body2) pub o err now c iter
      (fuel + 1) = some ([Event.connectCall, Event.mailNotify], 1) := by
  refine ⟨⟨by decide, by decide, adapter_connect_call_raises body1⟩, ?_, ?_⟩
  · rw [start_receiving_results_run, receive_loop_iteration_typeerror]
  · rw [start_uploading_requests_run, hgr, upload_loop_iteration_typeerror]

/-- C1 witness: the theorem applied at a concrete adapter state and request
oracle. -/
theorem C1_connect_typeerror_witness :
    ((fun _ : Nat =>
        (Except.ok (some (ProcessingRequest.mk ["ocr"] none 0 "page-1")) :
          Except PyExc (Option ProcessingRequest))) 0 =
      Except.ok (some (ProcessingRequest.mk ["ocr"] none 0 "page-1"))) ∧
    (("confirm_delivery" ∈ adapter_connect_call_keywords ∧
      "confirm_delivery" ∉ mq_connect_retry_keywords ∧
      py_call_keywords mq_connect_retry_keywords adapter_connect_call_keywords
        (Except.ok ()) = .error .typeError) ∧
     start_receiving_results_run 10 (fun _ => Except.ok ()) (fun _ => none)
       0 0 1 = some ([Event.connectCall, Event.mailNotify], 1) ∧
     start_uploading_requests_run 10
       (fun _ => Except.ok (some (ProcessingRequest.mk ["ocr"] none 0 "page-1")))
       (fun _ => Except.ok ()) (fun _ => PublishOutcome.delivered)
       "out" "e" (fun _ => 5) 0 0 1 =
       some ([Event.connectCall, Event.mailNotify], 1)) :=
  ⟨rfl, C1_connect_typeerror 10 0 0 0 (Except.ok ()) (Except.ok ())
    (fun _ => none) (ProcessingRequest.mk ["ocr"] none 0 "page-1")
    (fun _ => Except.ok (some (ProcessingRequest.mk ["ocr"] none 0 "page-1")))
    (fun _ => PublishOutcome.delivered) "out" "e" (fun _ => 5) rfl⟩

/-- C2: for every request with non-empty processing_stages = s0 :: rest and
output queue o, the routing step of mq_send_request returns input queue s0
(the original head), the mutated request has processing_stages equal to the
original sequence with o appended at the tail, its start_time is set to the
returned timestamp, and the timestamp is not earlier than the (UTC) time of
the call, modelled by the `now` parameter. -/
theorem C2_route (r : ProcessingRequest) (o : String) (now : Nat)
    (s0 : String) (rest : List String)
    (h : r.processing_stages = s0 :: rest) :
    ∃ ts, mq_send_request_route r o now =
        some (s0,
          { r with processing_stages := r.processing_stages ++ [o]
                   start_time := some ts },
          ts) ∧ now ≤ ts := by
  refine ⟨now, ?_, le_refl now⟩
  unfold mq_send_request_route
  rw [h]

/-- C2 witness: the theorem applied to a concrete two-stage request. -/
theorem C2_route_witness :
    ((ProcessingRequest.mk ["s0", "s1"] none 0 "p").processing_stages =
      "s0" :: ["s1"]) ∧
    ∃ ts, mq_send_request_route (ProcessingRequest.mk ["s0", "s1"] none 0 "p")
        "out" 7 =
        some ("s0",
          { ProcessingRequest.mk ["s0", "s1"] none 0 "p" with
              processing_stages :=
                (ProcessingRequest.mk ["s0", "s1"] none 0 "p").processing_stages
                  ++ ["out"]
              start_time := some ts },
          ts) ∧ 7 ≤ ts :=
  ⟨rfl, C2_route (ProcessingRequest.mk ["s0", "s1"] none 0 "p") "out" 7
    "s0" ["s1"] rfl⟩

/-- C10: whatever value is passed for the max_error_count constructor
argument, WorkerAdapter.__init__ stores max_error_count = 10 on the instance
(worker_adapter.py line 78); the argument is ignored, so two constructions
differing only in that argument yield identical states. -/
theorem C10_max_error_count_hardcoded (t m m2 : Nat) :
    (WorkerAdapter_init t m).max_error_count = 10 ∧
    (WorkerAdapter_init t m).error_count = 0 ∧
    WorkerAdapter_init t m = WorkerAdapter_init t m2 := ⟨rfl, rfl, rfl⟩

/-- C3: with max_retry = N ≥ 1, when every connect attempt leaves connection
or channel closed and the client starts disconnected, mq_connect_retry
performs exactly N mq_connect calls, sleeping retry_interval only between
consecutive attempts (the full trace is attempt, sleep, attempt, …, attempt:
N attempts and N-1 sleeps, none before the first attempt and none after the
last), and then raises ConnectionError; with max_retry = 0 the loop keeps
retrying with no attempt bound (after any number `f` of iterations it has
made f attempts and not raised); and for any connect behaviour it raises if
and only if the loop ends without connection and channel both open. -/
theorem C3_mq_connect_retry (connect : Nat → MQConnState)
    (N interval fuel : Nat) (state : MQConnState)
    (hfail : ∀ k, mq_connected (connect k) = false)
    (hstate : mq_connected state = false)
    (hN : 1 ≤ N) (hfuel : N ≤ fuel) :
    (mq_connect_retry connect N interval state fuel =
       (retry_fail_trace interval N true, some (connect (N - 1), true)) ∧
     (retry_fail_trace interval N true).count RetryEvent.connectAttempt = N ∧
     (retry_fail_trace interval N true).count (RetryEvent.sleepRetry interval)
       = N - 1) ∧
    (∀ f, mq_connect_retry connect 0 interval state f =
       (retry_fail_trace interval f true, none) ∧
       (retry_fail_trace interval f true).count RetryEvent.connectAttempt = f) ∧
    (∀ connect2 state2, ∃ st raised,
       (mq_connect_retry connect2 N interval state2 fuel).2 =
         some (st, raised) ∧
       (raised = true ↔ mq_connected st = false)) := by
  refine ⟨⟨?_, ?_, ?_⟩, ?_, ?_⟩
  · unfold mq_connect_retry
    have := mq_connect_retry_go_all_fail connect N interval hfail N 0 state
      fuel hstate (by omega) (by omega) hfuel
    simpa using this
  · exact retry_fail_trace_count_attempts interval N true
  · obtain ⟨n, rfl⟩ : ∃ n, N = n + 1 := ⟨N - 1, by omega⟩
    simpa using (retry_fail_trace_count_sleeps interval n).2
  · intro f
    unfold mq_connect_retry
    have := mq_connect_retry_go_unlimited connect interval hfail f 0 state
      hstate
    refine ⟨by simpa using this, retry_fail_trace_count_attempts interval f true⟩
  · intro connect2 state2
    exact mq_connect_retry_go_terminates connect2 N interval hN fuel 0 state2
      (by omega) (by omega)

/-- C3 witness: the theorem applied with three endpoints that always fail,
max_retry = 3 and retry_interval = 5. -/
theorem C3_mq_connect_retry_witness :
    ((∀ k, mq_connected ((fun _ : Nat => MQConnState.mk false false) k)
        = false) ∧
     mq_connected (MQConnState.mk false false) = false ∧
     1 ≤ 3 ∧ 3 ≤ 3) ∧
    ((mq_connect_retry (fun _ => MQConnState.mk false false) 3 5
        (MQConnState.mk false false) 3 =
        (retry_fail_trace 5 3 true,
         some ((fun _ : Nat => MQConnState.mk false false) (3 - 1), true)) ∧
      (retry_fail_trace 5 3 true).count RetryEvent.connectAttempt = 3 ∧
      (retry_fail_trace 5 3 true).count (RetryEvent.sleepRetry 5) = 3 - 1) ∧
     (∀ f, mq_connect_retry (fun _ => MQConnState.mk false false) 0 5
        (MQConnState.mk false false) f = (retry_fail_trace 5 f true, none) ∧
        (retry_fail_trace 5 f true).count RetryEvent.connectAttempt = f) ∧
     (∀ connect2 state2, ∃ st raised,
        (mq_connect_retry connect2 3 5 state2 3).2 = some (st, raised) ∧
        (raised = true ↔ mq_connected st = false))) :=
  ⟨⟨fun _ => rfl, rfl, by omega, by omega⟩,
   C3_mq_connect_retry (fun _ => MQConnState.mk false false) 3 5 3
     (MQConnState.mk false false) (fun _ => rfl) rfl (by omega) (by omega)⟩

/-- C4 counterexample: on a fresh adapter (max_error_count stored as 10,
error_count 0), a run of 11 recognized failures makes the running error count
cross the threshold exactly once — after failure 10 the counter is 10 ≤ 10,
after failure 11 it is 11 > 10 — yet the notifier is not asked on any of the
11 failures, in particular not on failure 11, whose increment is the one that
first makes the counter exceed the threshold. This falsifies C4 as stated. -/
theorem C4_counterexample :
    (WorkerAdapter_init 60 10).max_error_count = 10 ∧
    (WorkerAdapter_init 60 10).error_count = 0 ∧
    error_count_after 0 10 ≤ 10 ∧ 10 < error_count_after 0 11 ∧
    error_notify_run 10 0 11 = List.replicate 11 false := by decide

/-- C4 amended: in both loops the recognized-failure branches request the
notification exactly when the counter BEFORE the increment already exceeds
max_error_count. Hence, over any run of recognized failures starting from a
reset counter, the k-th failure (0-based) requests a notification iff
k > max_error_count: the first notification happens on the failure after the
one whose increment first makes the counter exceed the threshold, and every
recognized failure from then on (until a reset) also notifies. The last two
conjuncts tie the step to the loop branches: the AMQPError consuming branch
of the receive loop and the recoverable get_request branch of the upload loop
both notify iff the pre-increment counter exceeds the threshold and then
increment. -/
theorem C4_amended (max_error_count n c : Nat) :
    error_notify_run max_error_count 0 n =
      (List.range n).map (fun k => decide (k > max_error_count)) ∧
    (∀ j k, j ≤ k → (error_notify_step max_error_count j).1 = true →
      (error_notify_step max_error_count k).1 = true) ∧
    consume_exc_dispatch max_error_count c (some .amqpError) =
      ((if c > max_error_count then [Event.mailNotify] else []),
       (error_notify_step max_error_count c).2, .nextIteration) ∧
    upload_loop_iteration max_error_count c
        (.error .workerAdapterRecoverableError) (.ok ()) .delivered "o" "e" 0 =
      ((if c > max_error_count then [Event.mailNotify] else []) ++
         [Event.sleepRecovery],
       (error_notify_step max_error_count c).2, .nextIteration) := by
  refine ⟨by simpa using error_notify_run_eq max_error_count n 0, ?_, rfl, rfl⟩
  intro j k hjk hj
  simp only [error_notify_step, decide_eq_true_eq] at hj ⊢
  omega

/-- C5 counterexample: in the receive loop, after N = 1 recognized failure
the error counter is 1; a subsequently received message that deserializes and
is handled successfully is acked, but the counter immediately after that
success is still 1, not 0 (start_receiving_results never resets
error_count). This falsifies C5 as stated for the receive loop. -/
theorem C5_counterexample :
    (error_notify_step 10 0).2 = 1 ∧
    mq_receive_result_callback none none ((error_notify_step 10 0).2) =
      (MessageAction.ack, none, 1) ∧
    (1 : Nat) ≠ 0 := by decide

/-- C5 amended: in the send loop the claim holds — whatever the error count
accumulated by any number of preceding failures, a successful publish resets
it to exactly 0 (worker_adapter.py line 380). In the receive loop it does
not: a successfully handled message is acked but leaves the error counter
unchanged; no reset to 0 exists in start_receiving_results. -/
theorem C5_amended (m c now : Nat) (r : ProcessingRequest) (o err : String)
    (s0 : String) (rest : List String)
    (h : r.processing_stages = s0 :: rest) :
    (upload_publish_section m c r o err now .delivered).2.1 = 0 ∧
    (∀ c2, mq_receive_result_callback none none c2 =
      (MessageAction.ack, none, c2)) := by
  refine ⟨?_, fun c2 => rfl⟩
  unfold upload_publish_section mq_send_request_route
  rw [h]

/-- C5 witness: the theorem applied with a concrete one-stage request and a
counter of 4 accumulated failures. -/
theorem C5_amended_witness :
    ((ProcessingRequest.mk ["s0"] none 0 "p").processing_stages =
      "s0" :: []) ∧
    ((upload_publish_section 10 4 (ProcessingRequest.mk ["s0"] none 0 "p")
        "out" "e" 7 .delivered).2.1 = 0 ∧
     (∀ c2, mq_receive_result_callback none none c2 =
       (MessageAction.ack, none, c2))) :=
  ⟨rfl, C5_amended 10 4 7 (ProcessingRequest.mk ["s0"] none 0 "p") "out" "e"
    "s0" [] rfl⟩

/-- C6: for every request whose publish is rejected as unroutable, the
unroutable branch of the send loop calls report_error exactly once, with the
(routed) request and the error message, never calls confirm_send in that
iteration, publishes the request exactly once (no retry of the publish), the
error counter is untouched, and the loop continues with the next
iteration. -/
theorem C6_unroutable (m c now : Nat) (r : ProcessingRequest)
    (s0 : String) (rest : List String) (o err : String)
    (h : r.processing_stages = s0 :: rest) :
    report_error_calls (upload_publish_section m c r o err now .unroutable).1 =
      [({ r with processing_stages := r.processing_stages ++ [o]
                 start_time := some now },
        unroutable_report_message r.page_uuid err)] ∧
    confirm_send_calls
      (upload_publish_section m c r o err now .unroutable).1 = [] ∧
    publish_attempts (upload_publish_section m c r o err now .unroutable).1 =
      [{ r with processing_stages := r.processing_stages ++ [o]
                start_time := some now }] ∧
    (upload_publish_section m c r o err now .unroutable).2 =
      (c, .nextIteration) := by
  unfold upload_publish_section mq_send_request_route
  rw [h]
  exact ⟨rfl, rfl, rfl, rfl⟩

/-- C6 witness: the theorem applied to a concrete request rejected as
unroutable. -/
theorem C6_unroutable_witness :
    ((ProcessingRequest.mk ["bad_queue"] none 0 "p").processing_stages =
      "bad_queue" :: []) ∧
    (report_error_calls (upload_publish_section 10 3
        (ProcessingRequest.mk ["bad_queue"] none 0 "p") "out" "NACK" 7
        .unroutable).1 =
      [({ ProcessingRequest.mk ["bad_queue"] none 0 "p" with
            processing_stages :=
              (ProcessingRequest.mk ["bad_queue"] none 0 "p").processing_stages
                ++ ["out"]
            start_time := some 7 },
        unroutable_report_message
          (ProcessingRequest.mk ["bad_queue"] none 0 "p").page_uuid "NACK")] ∧
     confirm_send_calls (upload_publish_section 10 3
        (ProcessingRequest.mk ["bad_queue"] none 0 "p") "out" "NACK" 7
        .unroutable).1 = [] ∧
     publish_attempts (upload_publish_section 10 3
        (ProcessingRequest.mk ["bad_queue"] none 0 "p") "out" "NACK" 7
        .unroutable).1 =
      [{ ProcessingRequest.mk ["bad_queue"] none 0 "p" with
           processing_stages :=
             (ProcessingRequest.mk ["bad_queue"] none 0 "p").processing_stages
               ++ ["out"]
           start_time := some 7 }] ∧
     (upload_publish_section 10 3
        (ProcessingRequest.mk ["bad_queue"] none 0 "p") "out" "NACK" 7
        .unroutable).2 = (3, .nextIteration)) :=
  ⟨rfl, C6_unroutable 10 3 7 (ProcessingRequest.mk ["bad_queue"] none 0 "p")
    "bad_queue" [] "out" "NACK" rfl⟩

/-- C7 counterexample: a message whose body fails to deserialize is nacked
with requeue = true and the parse exception is re-raised — but the re-raised
exception, propagating out of start_consuming, is not matched by the
AMQPError or recoverable-error clauses: it reaches the generic
unclassified-exception clause, which breaks the receive loop with return
code 1. The loop does NOT continue consuming, falsifying the second half of
C7 as stated. -/
theorem C7_counterexample :
    mq_receive_result_callback (some PyExc.decodeError) none 0 =
      (MessageAction.nack true, some PyExc.decodeError, 0) ∧
    consume_exc_dispatch 10 0 (some PyExc.decodeError) =
      ([Event.mailNotify], 1, LoopControl.breakLoop 1) ∧
    LoopControl.breakLoop 1 ≠ LoopControl.nextIteration := by decide

/-- C7 amended: for every message whose body fails to deserialize, the
handler negatively acknowledges the message with requeue = true and re-raises
the parse exception; the re-raised exception is handled by the
unclassified-exception branch of start_receiving_results, which sends a mail
notification, increments the error counter and stops the receive loop with
status 1 (the loop does not continue consuming). -/
theorem C7_deserialize_failure (m c : Nat) (handler_exc : Option PyExc) :
    mq_receive_result_callback (some PyExc.decodeError) handler_exc c =
      (MessageAction.nack true, some PyExc.decodeError, c) ∧
    consume_exc_dispatch m c (some PyExc.decodeError) =
      ([Event.mailNotify], c + 1, .breakLoop 1) := ⟨rfl, rfl⟩

/-- C8 counterexample: a single-server directory whose server accepts the
transport connection but fails when the channel is opened: every server
fails, yet after mq_connect the mq_connection attribute is assigned (to that
server's connection object), not left unset. This falsifies the "if every
server fails, connection and channel are left unset" half of C8. -/
theorem C8_counterexample :
    mq_connect [(0, ConnAttemptResult.channelFail)]
      { mq_connection := none, mq_channel := none } =
      ({ mq_connection := some 0, mq_channel := none }, [0]) ∧
    (some 0 : Option Nat) ≠ none := by decide

/-- C8 amended: when some leading servers all fail (in either mode) and S is
the first server on which connection and channel both open, mq_connect ends
with connection and channel assigned to S and attempts no server after S.
When every server fails, mq_connect still returns without raising after
attempting every server in order, and the channel is left unset; the
connection is additionally left unset provided every failure happened at the
transport-connection step — a server whose transport connects but whose
channel opening fails leaves its connection assigned (as the counterexample
shows). -/
theorem C8_mq_connect (S : Nat)
    (pre post servers tservers : List (Nat × ConnAttemptResult))
    (st : MQClientConn)
    (hpre : ∀ p ∈ pre, p.2 ≠ ConnAttemptResult.success)
    (hfail : ∀ p ∈ servers, p.2 ≠ ConnAttemptResult.success)
    (htrans : ∀ p ∈ tservers, p.2 = ConnAttemptResult.transportFail) :
    mq_connect (pre ++ (S, ConnAttemptResult.success) :: post) st =
      ({ mq_connection := some S, mq_channel := some S },
       pre.map Prod.fst ++ [S]) ∧
    ((mq_connect servers ⟨none, none⟩).1.mq_channel = none ∧
     (mq_connect servers ⟨none, none⟩).2 = servers.map Prod.fst) ∧
    mq_connect tservers ⟨none, none⟩ =
      (⟨none, none⟩, tservers.map Prod.fst) := by
  exact ⟨mq_connect_first_success S post pre hpre st,
    mq_connect_all_fail servers hfail none,
    mq_connect_all_transport tservers htrans ⟨none, none⟩⟩

/-- C8 witness: the theorem applied to the directory [A, B] where A refuses
the connection and B accepts, to a mixed failing directory whose first server
fails at channel opening and whose second fails at the transport step, and to
a directory of two transport-failing servers. -/
theorem C8_mq_connect_witness :
    ((∀ p ∈ [(0, ConnAttemptResult.transportFail)],
        p.2 ≠ ConnAttemptResult.success) ∧
     (∀ p ∈ [(4, ConnAttemptResult.channelFail),
             (5, ConnAttemptResult.transportFail)],
        p.2 ≠ ConnAttemptResult.success) ∧
     (∀ p ∈ [(2, ConnAttemptResult.transportFail),
             (3, ConnAttemptResult.transportFail)],
        p.2 = ConnAttemptResult.transportFail)) ∧
    (mq_connect ([(0, ConnAttemptResult.transportFail)] ++
        (1, ConnAttemptResult.success) ::
          [(9, ConnAttemptResult.transportFail)])
        { mq_connection := none, mq_channel := none } =
      ({ mq_connection := some 1, mq_channel := some 1 },
       [(0, ConnAttemptResult.transportFail)].map Prod.fst ++ [1]) ∧
     ((mq_connect [(4, ConnAttemptResult.channelFail),
          (5, ConnAttemptResult.transportFail)] ⟨none, none⟩).1.mq_channel =
        none ∧
      (mq_connect [(4, ConnAttemptResult.channelFail),
          (5, ConnAttemptResult.transportFail)] ⟨none, none⟩).2 =
        [(4, ConnAttemptResult.channelFail),
         (5, ConnAttemptResult.transportFail)].map Prod.fst) ∧
     mq_connect [(2, ConnAttemptResult.transportFail),
         (3, ConnAttemptResult.transportFail)] ⟨none, none⟩ =
       (⟨none, none⟩,
        [(2, ConnAttemptResult.transportFail),
         (3, ConnAttemptResult.transportFail)].map Prod.fst)) :=
  ⟨⟨by decide, by decide, by decide⟩,
   C8_mq_connect 1 [(0, ConnAttemptResult.transportFail)]
     [(9, ConnAttemptResult.transportFail)]
     [(4, ConnAttemptResult.channelFail),
      (5, ConnAttemptResult.transportFail)]
     [(2, ConnAttemptResult.transportFail),
      (3, ConnAttemptResult.transportFail)]
     { mq_connection := none, mq_channel := none }
     (by decide) (by decide) (by decide)⟩

/-- C9: on a well-formed client state (every stored reference is allocated
below the heap's next-fresh counter), two consecutive get_mq_servers calls
with no intervening _set_mq_servers return lists whose record values both
equal the stored record values — so the two snapshots are deep-equal; every
reference in a returned snapshot is fresh (disjoint from the stored
references); and mutating any record object of a returned snapshot never
affects the record values of a later get_mq_servers call. -/
theorem C9_snapshot (st : ZkAdapterClientState)
    (hwf : ∀ q ∈ st.mq_servers, q < st.heap.next) :
    (record_values (get_mq_servers st).1 (get_mq_servers st).2 =
       record_values st st.mq_servers ∧
     record_values (get_mq_servers (get_mq_servers st).1).1
         (get_mq_servers (get_mq_servers st).1).2 =
       record_values st st.mq_servers) ∧
    (∀ a ∈ (get_mq_servers st).2, st.heap.next ≤ a) ∧
    (∀ a v, a ∈ (get_mq_servers st).2 →
      record_values
          (get_mq_servers (mutate_record (get_mq_servers st).1 a v)).1
          (get_mq_servers (mutate_record (get_mq_servers st).1 a v)).2 =
        record_values st st.mq_servers) := by
  have hle := (deepcopy_list_heap_spec st.mq_servers st.heap).1
  have hget := (deepcopy_list_heap_spec st.mq_servers st.heap).2
  have hwf1 : ∀ q ∈ st.mq_servers,
      q < (deepcopy_list st.heap st.mq_servers).1.next :=
    fun q hq => lt_of_lt_of_le (hwf q hq) hle
  refine ⟨⟨deepcopy_list_values st.mq_servers st.heap hwf, ?_⟩, ?_, ?_⟩
  · calc record_values (get_mq_servers (get_mq_servers st).1).1
          (get_mq_servers (get_mq_servers st).1).2
        = st.mq_servers.map (fun q =>
            (((deepcopy_list st.heap st.mq_servers).1.get q).getD default)) :=
          deepcopy_list_values st.mq_servers
            (deepcopy_list st.heap st.mq_servers).1 hwf1
      _ = record_values st st.mq_servers :=
          List.map_congr_left fun q hq => by rw [hget q (hwf q hq)]
  · intro a ha
    exact (deepcopy_list_refs_spec st.mq_servers st.heap a ha).1
  · intro a v ha
    have hafresh : st.heap.next ≤ a :=
      (deepcopy_list_refs_spec st.mq_servers st.heap a ha).1
    have hwfm : ∀ q ∈ st.mq_servers,
        q < ((deepcopy_list st.heap st.mq_servers).1.put a v).next :=
      fun q hq => lt_of_lt_of_le (hwf q hq) hle
    calc record_values
          (get_mq_servers (mutate_record (get_mq_servers st).1 a v)).1
          (get_mq_servers (mutate_record (get_mq_servers st).1 a v)).2
        = st.mq_servers.map (fun q =>
            ((((deepcopy_list st.heap st.mq_servers).1.put a v).get q).getD
              default)) :=
          deepcopy_list_values st.mq_servers
            ((deepcopy_list st.heap st.mq_servers).1.put a v) hwfm
      _ = st.mq_servers.map (fun q =>
            (((deepcopy_list st.heap st.mq_servers).1.get q).getD default)) :=
          List.map_congr_left fun q hq => by
            rw [RecHeap.get_put_ne _ a q v
              (by have := hwf q hq; omega)]
      _ = record_values st st.mq_servers :=
          List.map_congr_left fun q hq => by rw [hget q (hwf q hq)]

/-- C9 witness: the theorem applied to a concrete directory holding one
record at reference 0. -/
theorem C9_snapshot_witness :
    (∀ q ∈ (ZkAdapterClientState.mk
        (RecHeap.mk [(0, ServerRecord.mk "h" none)] 1) [0]).mq_servers,
      q < (ZkAdapterClientState.mk
        (RecHeap.mk [(0, ServerRecord.mk "h" none)] 1) [0]).heap.next) ∧
    ((record_values
        (get_mq_servers (ZkAdapterClientState.mk
          (RecHeap.mk [(0, ServerRecord.mk "h" none)] 1) [0])).1
        (get_mq_servers (ZkAdapterClientState.mk
          (RecHeap.mk [(0, ServerRecord.mk "h" none)] 1) [0])).2 =
       record_values (ZkAdapterClientState.mk
          (RecHeap.mk [(0, ServerRecord.mk "h" none)] 1) [0])
         (ZkAdapterClientState.mk
          (RecHeap.mk [(0, ServerRecord.mk "h" none)] 1) [0]).mq_servers ∧
      record_values
        (get_mq_servers (get_mq_servers (ZkAdapterClientState.mk
          (RecHeap.mk [(0, ServerRecord.mk "h" none)] 1) [0])).1).1
        (get_mq_servers (get_mq_servers (ZkAdapterClientState.mk
          (RecHeap.mk [(0, ServerRecord.mk "h" none)] 1) [0])).1).2 =
       record_values (ZkAdapterClientState.mk
          (RecHeap.mk [(0, ServerRecord.mk "h" none)] 1) [0])
         (ZkAdapterClientState.mk
          (RecHeap.mk [(0, ServerRecord.mk "h" none)] 1) [0]).mq_servers) ∧
     (∀ a ∈ (get_mq_servers (ZkAdapterClientState.mk
          (RecHeap.mk [(0, ServerRecord.mk "h" none)] 1) [0])).2,
        (ZkAdapterClientState.mk
          (RecHeap.mk [(0, ServerRecord.mk "h" none)] 1) [0]).heap.next ≤ a) ∧
     (∀ a v, a ∈ (get_mq_servers (ZkAdapterClientState.mk
          (RecHeap.mk [(0, ServerRecord.mk "h" none)] 1) [0])).2 →
       record_values
           (get_mq_servers (mutate_record
             (get_mq_servers (ZkAdapterClientState.mk
               (RecHeap.mk [(0, ServerRecord.mk "h" none)] 1) [0])).1 a v)).1
           (get_mq_servers (mutate_record
             (get_mq_servers (ZkAdapterClientState.mk
               (RecHeap.mk [(0, ServerRecord.mk "h" none)] 1) [0])).1 a v)).2 =
         record_values (ZkAdapterClientState.mk
            (RecHeap.mk [(0, ServerRecord.mk "h" none)] 1) [0])
           (ZkAdapterClientState.mk
            (RecHeap.mk [(0, ServerRecord.mk "h" none)] 1) [0]).mq_servers)) :=
  ⟨by decide,
   C9_snapshot (ZkAdapterClientState.mk
     (RecHeap.mk [(0, ServerRecord.mk "h" none)] 1) [0]) (by decide)⟩
